import Mathlib

/-!
Verification of the concurrent "guess the number" server (src/servidor.py).

The server keeps three globals: `jogadores` (an insertion-ordered dict from
player name to handler, here a list of `Player` records with unique names),
`jogo_comecou` (round-active flag) and `numero_para_adivinhar` (the target).
Each `ClientHandler` method mutates this shared state and sends messages.

We embed the handlers as pure functions from `ServerState` to
`ServerState × List Msg`.  Randomness (`random.randint(1, 100)` in
`inicia_jogo`) is passed in as an explicit parameter `r`; theorems quantify
over draws in `[1, 100]`.  Network sends become `Msg` events: `enviar`
becomes a `unicast` to the handler's own client, `anunciar` a `broadcast`
to all registered players, and an explicit socket close a `closeConn`.

The lock discipline (which shared-state accesses happen inside a
`with lock:` block) is embedded separately as access traces at the end of
the definitions section.
-/

namespace Servidor

/-- A registered player: the `nome` and `score` attributes of a
`ClientHandler` (src/servidor.py lines 32-33).  Scores start at 0, are only
incremented and reset, so `Nat`. -/
structure Player where
  nome : String
  score : Nat
  deriving Repr, DecidableEq

/-- The global mutable state of the server (src/servidor.py lines 7-13):
the `jogadores` dict (insertion-ordered, unique keys -> list of players in
insertion order), the `jogo_comecou` flag, and `numero_para_adivinhar`. -/
structure ServerState where
  jogadores : List Player
  jogo_comecou : Bool
  numero_para_adivinhar : Int
  deriving Repr, DecidableEq

/-- Initial global state: empty dict, `jogo_comecou = False`,
`numero_para_adivinhar = 0` (src/servidor.py lines 7-13). -/
def initialState : ServerState := ⟨[], false, 0⟩

/-- A network send event.  `unicast dest text` is `self.enviar(text)` on the
handler serving `dest`; `broadcast text` is `self.anunciar(text)`, which
sends to every registered player; `closeConn dest` is `self.conn.close()`. -/
inductive Msg where
  | unicast (dest : String) (text : String)
  | broadcast (text : String)
  | closeConn (dest : String)
  deriving Repr, DecidableEq

/-- The command help line (src/servidor.py lines 60, 132, 134). -/
def helpMsg : String := "Comandos: /START, /SCORE, /END ou /DESCONECTAR"

/-- Reply when a guess arrives with no round active (src/servidor.py line 214). -/
def noGameMsg : String :=
  "Nenhum jogo em andamento. Utilize /START ou aguarde alguém iniciar o jogo."

/-- Hint when the guess is below the target (src/servidor.py line 223). -/
def hintBigger : String := "O número é maior."

/-- Hint when the guess is above the target (src/servidor.py line 225). -/
def hintSmaller : String := "O número é menor."

/-- The broadcast announcing a correct guess (src/servidor.py line 217). -/
def winBroadcast (self : String) (t : Int) : Msg :=
  Msg.broadcast (self ++ " acertou o número: " ++ toString t ++ "!")

/-- `ClientHandler.inicia_jogo` (src/servidor.py lines 136-148): if
`jogo_comecou`, reply "Jogo já iniciado!" and return; otherwise store the
freshly drawn number `r`, set the flag and broadcast the new-round
announcement. -/
def inicia_jogo (self : String) (s : ServerState) (r : Int) :
    ServerState × List Msg :=
  if s.jogo_comecou then
    (s, [Msg.unicast self "Jogo já iniciado!"])
  else
    ({ s with numero_para_adivinhar := r, jogo_comecou := true },
     [Msg.broadcast "Novo jogo iniciado! Tente adivinhar o número entre 1 e 100."])

/-- The descending-by-score comparison used to embed Python's
`sorted(jogadores.values(), key=lambda j: j.score, reverse=True)`
(src/servidor.py line 172).  Python's sort is stable and `reverse=True`
keeps equal-key elements in original (insertion) order, which is exactly
`List.mergeSort` with this comparator. -/
def scoreGe (a b : Player) : Bool := b.score ≤ a.score

/-- The score-sorted list of players underlying the ranking text
(src/servidor.py line 172). -/
def rankingList (s : ServerState) : List Player :=
  s.jogadores.mergeSort scoreGe

/-- One line of the ranking text: `f"{posicao}. {jogador.nome}: {jogador.score}\n"`
(src/servidor.py line 176). -/
def rankingLine (pos : Nat) (p : Player) : String :=
  toString pos ++ ". " ++ p.nome ++ ": " ++ toString p.score ++ "\n"

/-- The numbered body of the ranking, accumulating `posicao` starting from
`pos` (src/servidor.py lines 174-177). -/
def rankingLines (pos : Nat) : List Player → String
  | [] => ""
  | p :: rest => rankingLine pos p ++ rankingLines (pos + 1) rest

/-- `ClientHandler.ranking` (src/servidor.py lines 162-178): header plus
one numbered line per player, positions starting at 1, players sorted by
descending score. -/
def ranking (s : ServerState) : String :=
  "Ranking:\n" ++ rankingLines 1 (rankingList s)

/-- `ClientHandler.finalizar_jogo` (src/servidor.py lines 180-192): if no
round is active, reply "Nenhum jogo em andamento para finalizar." and
return; otherwise broadcast who ended it, clear the flag, and broadcast the
ranking. -/
def finalizar_jogo (self : String) (s : ServerState) :
    ServerState × List Msg :=
  if s.jogo_comecou then
    let s1 := { s with jogo_comecou := false }
    (s1, [Msg.broadcast ("Jogo finalizado por: " ++ self ++ "!"),
          Msg.broadcast (ranking s1)])
  else
    (s, [Msg.unicast self "Nenhum jogo em andamento para finalizar."])

/-- `ClientHandler.zerar_scores` (src/servidor.py lines 194-201): set every
registered player's score to 0. -/
def zerar_scores (s : ServerState) : ServerState :=
  { s with jogadores := s.jogadores.map (fun p => { p with score := 0 }) }

/-- The mutation `self.score += 1` (src/servidor.py line 218) as seen
through the registry: the handler object for `self` is the dict entry with
key `self`, so the entry whose `nome` is `self` gets its score bumped.
Keys are unique, so at most one entry changes. -/
def bump (self : String) (p : Player) : Player :=
  if p.nome = self then { p with score := p.score + 1 } else p

/-- Registry after `self.score += 1` (src/servidor.py line 218). -/
def incrementScore (self : String) (s : ServerState) : ServerState :=
  { s with jogadores := s.jogadores.map (bump self) }

/-- `ClientHandler.processar_adivinhacao` (src/servidor.py lines 203-228)
after a successful `int(...)` parse of the guess `opcao`.  `r` is the
number `inicia_jogo` would draw when the win path auto-restarts.  If no
round is active, reply `noGameMsg`; on a correct guess, broadcast the win,
increment the guesser's score, finalize the round and immediately start a
new one; otherwise reply with the appropriate hint. -/
def processar_adivinhacao (self : String) (s : ServerState) (opcao : Int)
    (r : Int) : ServerState × List Msg :=
  if ¬ s.jogo_comecou then
    (s, [Msg.unicast self noGameMsg])
  else if opcao = s.numero_para_adivinhar then
    let m0 := winBroadcast self s.numero_para_adivinhar
    let s1 := incrementScore self s
    let fz := finalizar_jogo self s1
    let ij := inicia_jogo self fz.1 r
    (ij.1, m0 :: fz.2 ++ ij.2)
  else if opcao < s.numero_para_adivinhar then
    (s, [Msg.unicast self hintBigger])
  else
    (s, [Msg.unicast self hintSmaller])

/-- `ClientHandler.processa_comando` (src/servidor.py lines 117-134),
receiving the already-uppercased command string (line 75).  `/END` calls
`finalizar_jogo` and then, unconditionally, `zerar_scores` followed by the
help line (lines 129-132).  `r` is the draw used if the command is
`/START`. -/
def processa_comando (self : String) (s : ServerState) (comando : String)
    (r : Int) : ServerState × List Msg :=
  if comando = "/START" then
    inicia_jogo self s r
  else if comando = "/SCORE" then
    (s, [Msg.unicast self (ranking s)])
  else if comando = "/END" then
    let fz := finalizar_jogo self s
    let s2 := zerar_scores fz.1
    (s2, fz.2 ++ [Msg.unicast self helpMsg])
  else
    (s, [Msg.unicast self ("Comando inválido!" ++ "\n" ++ helpMsg)])

/-- The name-registration step of `ClientHandler.run`
(src/servidor.py lines 48-61): under the lock, if the name is taken, send
the rejection to the attempting client, close its connection and return
`false`; otherwise insert the player with score 0, broadcast the join
announcement and send the welcome line.  Returns whether registration
succeeded. -/
def tryRegister (nome : String) (s : ServerState) :
    ServerState × List Msg × Bool :=
  if s.jogadores.any (fun p => p.nome = nome) then
    (s, [Msg.unicast nome "Nome de usuário já em uso.", Msg.closeConn nome],
     false)
  else
    ({ s with jogadores := s.jogadores ++ [⟨nome, 0⟩] },
     [Msg.broadcast (nome ++ " entrou no jogo!"),
      Msg.unicast nome ("Bem-vindo, " ++ nome ++ "!" ++ "\n" ++ helpMsg)],
     true)

/-- `ClientHandler.remove_jogador` (src/servidor.py lines 107-115).
`self.nome` is `None` until registration succeeds, hence `Option String`.
If the name is a present key, delete that entry and broadcast the leave
announcement; otherwise do nothing. -/
def remove_jogador (nome : Option String) (s : ServerState) :
    ServerState × List Msg :=
  match nome with
  | none => (s, [])
  | some n =>
    if s.jogadores.any (fun p => p.nome = n) then
      ({ s with jogadores := s.jogadores.eraseP (fun p => p.nome = n) },
       [Msg.broadcast (n ++ " saiu do jogo.")])
    else
      (s, [])

/-- The score of player `n` in state `s`, read off the registry
(`None` if not registered). -/
def getScore (s : ServerState) (n : String) : Option Nat :=
  (s.jogadores.find? (fun p => p.nome = n)).map (fun p => p.score)

/-!
Lock-discipline model.  src/servidor.py guards shared state with one global
`lock` (line 16).  For each handler method we record, in program order, every
access it makes to the shared globals (`jogadores`, `jogo_comecou`,
`numero_para_adivinhar`) or to a player's `score` field, tagged with whether
the access occurs textually inside a `with lock:` block of the method
performing it.
-/

/-- A kind of access to the shared state. -/
inductive SharedAccess where
  | readRoundFlag
  | writeRoundFlag
  | readTarget
  | writeTarget
  | readRegistry
  | writeRegistry
  | readScores
  | writeScores
  | writeScoreSelf
  deriving Repr, DecidableEq

/-- One shared-state access together with whether the global lock is held
(i.e. the access sits inside a `with lock:` block) when it executes. -/
structure Access where
  kind : SharedAccess
  locked : Bool
  deriving Repr, DecidableEq

/-- `anunciar` (lines 150-160): iterates `jogadores.values()` inside
`with lock:`. -/
def anunciar_accesses : List Access := [⟨.readRegistry, true⟩]

/-- `inicia_jogo` (lines 136-148): inside `with lock:`, reads
`jogo_comecou` (142), writes `numero_para_adivinhar` (145) and
`jogo_comecou` (146), then broadcasts via `anunciar` (148). -/
def inicia_jogo_accesses : List Access :=
  ⟨.readRoundFlag, true⟩ :: ⟨.writeTarget, true⟩ :: ⟨.writeRoundFlag, true⟩ ::
    anunciar_accesses

/-- `ranking` (lines 162-178): inside `with lock:`, reads the registry and
every player's score (172-176). -/
def ranking_accesses : List Access :=
  [⟨.readRegistry, true⟩, ⟨.readScores, true⟩]

/-- `finalizar_jogo` (lines 180-192): inside `with lock:`, reads
`jogo_comecou` (186), broadcasts (189), writes `jogo_comecou` (190), builds
the ranking (191) and broadcasts it (192). -/
def finalizar_jogo_accesses : List Access :=
  ⟨.readRoundFlag, true⟩ :: anunciar_accesses ++
    ⟨.writeRoundFlag, true⟩ :: ranking_accesses ++ anunciar_accesses

/-- `zerar_scores` (lines 194-201): inside `with lock:`, iterates the
registry and writes every score. -/
def zerar_scores_accesses : List Access :=
  [⟨.readRegistry, true⟩, ⟨.writeScores, true⟩]

/-- The registration step of `run` (lines 48-61): inside `with lock:`,
membership test (49), insertion (58), then the join broadcast (59). -/
def tryRegister_accesses : List Access :=
  ⟨.readRegistry, true⟩ :: ⟨.writeRegistry, true⟩ :: anunciar_accesses

/-- `remove_jogador` (lines 107-115): inside `with lock:`, membership test
(113), deletion (114), leave broadcast (115). -/
def remove_jogador_accesses : List Access :=
  ⟨.readRegistry, true⟩ :: ⟨.writeRegistry, true⟩ :: anunciar_accesses

/-- `processar_adivinhacao` on the correct-guess path (lines 203-221): the
method body has no `with lock:` of its own, so the read of `jogo_comecou`
(213), the reads of `numero_para_adivinhar` (215, 217) and the write
`self.score += 1` (218) all execute with the lock NOT held; the nested
calls `anunciar` (217), `finalizar_jogo` (220) and `inicia_jogo` (221)
acquire the lock internally for their own accesses. -/
def processar_adivinhacao_accesses : List Access :=
  ⟨.readRoundFlag, false⟩ :: ⟨.readTarget, false⟩ :: anunciar_accesses ++
    ⟨.writeScoreSelf, false⟩ :: finalizar_jogo_accesses ++ inicia_jogo_accesses

/-- All access traces of the server's shared-state operations together. -/
def all_accesses : List Access :=
  tryRegister_accesses ++ remove_jogador_accesses ++ inicia_jogo_accesses ++
    finalizar_jogo_accesses ++ zerar_scores_accesses ++ ranking_accesses ++
    anunciar_accesses ++ processar_adivinhacao_accesses

end Servidor

/-!
Helper lemmas shared by the claim theorems.
-/

namespace Servidor

lemma bump_nome (self : String) (p : Player) : (bump self p).nome = p.nome := by
  unfold bump
  split <;> rfl

lemma find?_map_bump (l : List Player) (self n : String) :
    (l.map (bump self)).find? (fun p => p.nome = n) =
      (l.find? (fun p => p.nome = n)).map (bump self) := by
  rw [List.find?_map]
  have hpred : ((fun p => decide (p.nome = n)) ∘ bump self) =
      (fun p : Player => decide (p.nome = n)) := by
    funext p
    simp [Function.comp, bump_nome]
  rw [hpred]

lemma getScore_map_bump_self (l : List Player) (self : String)
    (flag : Bool) (num : Int) :
    getScore ⟨l.map (bump self), flag, num⟩ self =
      (getScore ⟨l, flag, num⟩ self).map (· + 1) := by
  unfold getScore
  simp only [find?_map_bump]
  cases h : l.find? (fun p => p.nome = self) with
  | none => simp
  | some p =>
    have hp : p.nome = self := by simpa using List.find?_some h
    simp [bump, hp]

lemma getScore_map_bump_ne (l : List Player) (self g : String) (hne : g ≠ self)
    (flag : Bool) (num : Int) :
    getScore ⟨l.map (bump self), flag, num⟩ g = getScore ⟨l, flag, num⟩ g := by
  unfold getScore
  simp only [find?_map_bump]
  cases h : l.find? (fun p => p.nome = g) with
  | none => simp
  | some p =>
    have hp : p.nome = g := by simpa using List.find?_some h
    have : ¬ p.nome = self := by rw [hp]; exact hne
    simp [bump, this]

/-- The net state transition of the correct-guess path of
`processar_adivinhacao` (src/servidor.py lines 215-221): winner's score
bumped, round finalized and immediately restarted with the new draw `r`. -/
lemma processar_win_state (self : String) (s : ServerState) (r : Int)
    (h : s.jogo_comecou = true) :
    (processar_adivinhacao self s s.numero_para_adivinhar r).1 =
      ⟨s.jogadores.map (bump self), true, r⟩ := by
  simp [processar_adivinhacao, h, incrementScore, finalizar_jogo, inicia_jogo]

/-- Position-annotated rendering of a ranking: one `rankingLine` per
`(position, player)` pair, concatenated.  Together with `List.enumFrom 1`
this is an independent statement of the 1-indexed numbering produced by the
`posicao` counter of src/servidor.py lines 174-177. -/
def numberedText (ps : List (Nat × Player)) : String :=
  ps.foldr (fun pr acc => rankingLine pr.1 pr.2 ++ acc) ""

lemma rankingLines_eq_numberedText (l : List Player) : ∀ pos : Nat,
    rankingLines pos l = numberedText (List.enumFrom pos l) := by
  induction l with
  | nil => intro pos; rfl
  | cons p rest ih =>
    intro pos
    simp [rankingLines, List.enumFrom, numberedText, ih (pos + 1)]

lemma scoreGe_trans (a b c : Player) (h1 : scoreGe a b = true)
    (h2 : scoreGe b c = true) : scoreGe a c = true := by
  simp [scoreGe] at *
  omega

lemma scoreGe_total (a b : Player) : (scoreGe a b || scoreGe b a) = true := by
  simp [scoreGe]
  omega

/-- Stability of the ranking sort: within one score value, the sorted order
is exactly the registry (insertion) order. -/
lemma filter_score_mergeSort (l : List Player) (k : Nat) :
    (l.mergeSort scoreGe).filter (fun p => p.score = k) =
      l.filter (fun p => p.score = k) := by
  have hsub : (l.filter (fun p => p.score = k)).Sublist l := List.filter_sublist l
  have hpair : List.Pairwise (fun a b => scoreGe a b = true)
      (l.filter (fun p => p.score = k)) := by
    apply List.pairwise_of_forall_mem_list
    intro a ha b hb
    have ha2 : a.score = k := by simpa using (List.mem_filter.mp ha).2
    have hb2 : b.score = k := by simpa using (List.mem_filter.mp hb).2
    simp [scoreGe, ha2, hb2]
  have hstable := List.sublist_mergeSort scoreGe_trans scoreGe_total hpair hsub
  have hself : (l.filter (fun p => p.score = k)).filter (fun p => p.score = k) =
      l.filter (fun p => p.score = k) := by
    rw [List.filter_eq_self]
    intro a ha
    simpa using (List.mem_filter.mp ha).2
  have hsub2 : (l.filter (fun p => p.score = k)).Sublist
      ((l.mergeSort scoreGe).filter (fun p => p.score = k)) := by
    have := hstable.filter (fun p => p.score = k)
    rwa [hself] at this
  have hlen : (l.filter (fun p => p.score = k)).length =
      ((l.mergeSort scoreGe).filter (fun p => p.score = k)).length := by
    have hperm := (List.mergeSort_perm l scoreGe).filter (fun p => p.score = k)
    exact (hperm.length_eq).symm
  exact (hsub2.eq_of_length hlen).symm

end Servidor

/-!
Claim theorems.
-/

namespace Servidor

/-- Claim C1: while a round is active with target `T`, processing a guess
`n` yields the win broadcast (heading the resolution messages) iff `n = T`,
the "O número é maior" hint iff `n < T`, and the "O número é menor" hint
iff `n > T`; while no round is active, the reply is the informational
no-active-round message, for every integer `n`. -/
theorem c1_guess_evaluation (self : String) (s : ServerState) (n r : Int) :
    (s.jogo_comecou = false →
      processar_adivinhacao self s n r = (s, [Msg.unicast self noGameMsg]))
    ∧ (s.jogo_comecou = true →
      ((processar_adivinhacao self s n r).2.head? =
          some (winBroadcast self s.numero_para_adivinhar) ↔
        n = s.numero_para_adivinhar)
      ∧ ((processar_adivinhacao self s n r).2 = [Msg.unicast self hintBigger] ↔
        n < s.numero_para_adivinhar)
      ∧ ((processar_adivinhacao self s n r).2 = [Msg.unicast self hintSmaller] ↔
        s.numero_para_adivinhar < n)) := by
  constructor
  · intro hf
    simp [processar_adivinhacao, hf]
  · intro ht
    rcases lt_trichotomy n s.numero_para_adivinhar with h | h | h
    · simp [processar_adivinhacao, ht, h, h.ne, winBroadcast, hintBigger, hintSmaller]
      omega
    · simp [processar_adivinhacao, ht, h, winBroadcast, hintBigger, hintSmaller]
    · simp [processar_adivinhacao, ht, h.ne.symm, not_lt.mpr h.le, h,
        winBroadcast, hintBigger, hintSmaller]

/-- Witness for C1: with no active round, guessing 5 gets the
no-active-round reply. -/
theorem c1_witness :
    processar_adivinhacao "A" ⟨[⟨"A", 0⟩], false, 0⟩ 5 1 =
      (⟨[⟨"A", 0⟩], false, 0⟩, [Msg.unicast "A" noGameMsg]) :=
  (c1_guess_evaluation "A" ⟨[⟨"A", 0⟩], false, 0⟩ 5 1).1 rfl

/-- Claim C2: resolving a correct guess while a round is active increments
the guesser's score by exactly 1 and leaves the round active again with the
freshly drawn target `r`, which `random.randint(1, 100)` guarantees lies in
`[1, 100]`. -/
theorem c2_correct_guess_resolution (self : String) (s : ServerState) (r : Int)
    (hact : s.jogo_comecou = true) (hr1 : 1 ≤ r) (hr2 : r ≤ 100) :
    (processar_adivinhacao self s s.numero_para_adivinhar r).1.jogo_comecou = true
    ∧ 1 ≤ (processar_adivinhacao self s s.numero_para_adivinhar r).1.numero_para_adivinhar
    ∧ (processar_adivinhacao self s s.numero_para_adivinhar r).1.numero_para_adivinhar ≤ 100
    ∧ getScore (processar_adivinhacao self s s.numero_para_adivinhar r).1 self =
        (getScore s self).map (· + 1) := by
  rw [processar_win_state self s r hact]
  refine ⟨rfl, hr1, hr2, ?_⟩
  have := getScore_map_bump_self s.jogadores self s.jogo_comecou s.numero_para_adivinhar
  simpa [getScore] using this

/-- Witness for C2: player "A" guesses the target 7; afterwards the round is
active with target 9 and "A" has one more point. -/
theorem c2_witness :
    (processar_adivinhacao "A" ⟨[⟨"A", 0⟩], true, 7⟩ 7 9).1.jogo_comecou = true
    ∧ 1 ≤ (processar_adivinhacao "A" ⟨[⟨"A", 0⟩], true, 7⟩ 7 9).1.numero_para_adivinhar
    ∧ (processar_adivinhacao "A" ⟨[⟨"A", 0⟩], true, 7⟩ 7 9).1.numero_para_adivinhar ≤ 100
    ∧ getScore (processar_adivinhacao "A" ⟨[⟨"A", 0⟩], true, 7⟩ 7 9).1 "A" =
        (getScore ⟨[⟨"A", 0⟩], true, 7⟩ "A").map (· + 1) :=
  c2_correct_guess_resolution "A" ⟨[⟨"A", 0⟩], true, 7⟩ 9 rfl (by decide) (by decide)

/-- Counterexample to claim C3 as stated: with no round active and "Alice"
holding 3 points, processing `/END` resets her score to 0, contradicting
"no player's score is changed". -/
theorem c3_counterexample :
    getScore ⟨[⟨"Alice", 3⟩], false, 0⟩ "Alice" = some 3
    ∧ getScore (processa_comando "Alice" ⟨[⟨"Alice", 3⟩], false, 0⟩ "/END" 1).1 "Alice" =
        some 0 := by
  constructor <;> decide

/-- Claim C3 amended: processing `/END` while no round is active leaves the
round idle and broadcasts nothing, and the issuer receives the
"nothing to end" reply followed by the command help line, but every
registered player's score is still reset to 0 (src/servidor.py line 131
calls `zerar_scores` unconditionally). -/
theorem c3_amended_end_when_idle (self : String) (s : ServerState) (r : Int)
    (h : s.jogo_comecou = false) :
    processa_comando self s "/END" r =
      (⟨s.jogadores.map (fun p => { p with score := 0 }), s.jogo_comecou,
        s.numero_para_adivinhar⟩,
       [Msg.unicast self "Nenhum jogo em andamento para finalizar.",
        Msg.unicast self helpMsg]) := by
  simp [processa_comando, finalizar_jogo, zerar_scores, h]

/-- Witness for the amended C3 at a concrete idle state. -/
theorem c3_witness :
    processa_comando "Alice" ⟨[⟨"Alice", 3⟩], false, 0⟩ "/END" 1 =
      (⟨[⟨"Alice", 0⟩], false, 0⟩,
       [Msg.unicast "Alice" "Nenhum jogo em andamento para finalizar.",
        Msg.unicast "Alice" helpMsg]) :=
  c3_amended_end_when_idle "Alice" ⟨[⟨"Alice", 3⟩], false, 0⟩ 1 rfl

/-- Claim C4: after processing `/END` while a round is active, every player
in the registry has score 0. -/
theorem c4_end_resets_scores (self : String) (s : ServerState) (r : Int)
    (h : s.jogo_comecou = true) :
    ∀ p ∈ (processa_comando self s "/END" r).1.jogadores, p.score = 0 := by
  intro p hp
  simp [processa_comando, finalizar_jogo, zerar_scores, h] at hp
  obtain ⟨q, _, rfl⟩ := hp
  rfl

/-- Witness for C4: "A" had 3 points; after `/END` the registry holds "A"
with score 0. -/
theorem c4_witness :
    (⟨"A", 0⟩ : Player) ∈ (processa_comando "A" ⟨[⟨"A", 3⟩], true, 7⟩ "/END" 1).1.jogadores
    ∧ (⟨"A", 0⟩ : Player).score = 0 :=
  ⟨by decide, c4_end_resets_scores "A" ⟨[⟨"A", 3⟩], true, 7⟩ 1 rfl ⟨"A", 0⟩ (by decide)⟩

/-- Claim C5: registering a name already present fails without mutating the
registry: the state is unchanged (so the existing entry and score are
untouched), the only messages are the rejection unicast to the attempting
client and the close of its connection (no broadcast), and the result is
`false`. -/
theorem c5_duplicate_name_rejected (nome : String) (s : ServerState)
    (h : s.jogadores.any (fun p => p.nome = nome) = true) :
    tryRegister nome s =
      (s, [Msg.unicast nome "Nome de usuário já em uso.", Msg.closeConn nome],
       false) := by
  simp [tryRegister, h]

/-- Witness for C5: a second "Alice" is rejected and the first keeps her
entry and score. -/
theorem c5_witness :
    tryRegister "Alice" ⟨[⟨"Alice", 2⟩], false, 0⟩ =
      (⟨[⟨"Alice", 2⟩], false, 0⟩,
       [Msg.unicast "Alice" "Nome de usuário já em uso.", Msg.closeConn "Alice"],
       false) :=
  c5_duplicate_name_rejected "Alice" ⟨[⟨"Alice", 2⟩], false, 0⟩ (by decide)

/-- Claim C6: removing a player whose name is absent — including a handler
whose name was never assigned (`none`) — is a no-op: state unchanged, no
message sent. -/
theorem c6_remove_absent_noop (nome : Option String) (s : ServerState)
    (h : ∀ n ∈ nome, s.jogadores.any (fun p => p.nome = n) = false) :
    remove_jogador nome s = (s, []) := by
  cases nome with
  | none => rfl
  | some n => simp [remove_jogador, h n rfl]

/-- Witness for C6: removing the absent "Bob" changes nothing. -/
theorem c6_witness :
    remove_jogador (some "Bob") ⟨[⟨"Alice", 2⟩], true, 7⟩ =
      (⟨[⟨"Alice", 2⟩], true, 7⟩, []) :=
  c6_remove_absent_noop (some "Bob") ⟨[⟨"Alice", 2⟩], true, 7⟩ (by decide)

/-- Claim C7: `/START` while a round is active only sends the
"Jogo já iniciado!" reply; the state — in particular the stored target and
the active flag — is unchanged. -/
theorem c7_start_when_active (self : String) (s : ServerState) (r : Int)
    (h : s.jogo_comecou = true) :
    inicia_jogo self s r = (s, [Msg.unicast self "Jogo já iniciado!"]) := by
  simp [inicia_jogo, h]

/-- Witness for C7 at a concrete active state. -/
theorem c7_witness :
    inicia_jogo "A" ⟨[], true, 7⟩ 5 =
      (⟨[], true, 7⟩, [Msg.unicast "A" "Jogo já iniciado!"]) :=
  c7_start_when_active "A" ⟨[], true, 7⟩ 5 rfl

/-- Claim C8: `/SCORE` returns the deterministic ranking text, which is the
header followed by one `rankingLine` per player with positions `1, 2, ...`
(via `List.enumFrom 1`); the listed players are exactly the registry
(a permutation), sorted by descending score, and within each score value
they appear in registry insertion order (stable tie-break). -/
theorem c8_ranking_characterization (self : String) (s : ServerState) (r : Int) :
    processa_comando self s "/SCORE" r = (s, [Msg.unicast self (ranking s)])
    ∧ ranking s = "Ranking:\n" ++ numberedText (List.enumFrom 1 (rankingList s))
    ∧ (rankingList s).Perm s.jogadores
    ∧ List.Pairwise (fun a b => b.score ≤ a.score) (rankingList s)
    ∧ ∀ k : Nat, (rankingList s).filter (fun p => p.score = k) =
        s.jogadores.filter (fun p => p.score = k) := by
  refine ⟨by simp [processa_comando], ?_, ?_, ?_, ?_⟩
  · unfold ranking
    rw [rankingLines_eq_numberedText]
  · exact List.mergeSort_perm s.jogadores scoreGe
  · have := List.sorted_mergeSort scoreGe_trans scoreGe_total s.jogadores
    exact this.imp (fun h => by simpa [scoreGe] using h)
  · intro k
    exact filter_score_mergeSort s.jogadores k

/-- Counterexample to claim C9 as stated: the access trace of
`processar_adivinhacao` contains shared-state accesses performed with the
global lock not held, so not every read/write happens under the lock. -/
theorem c9_counterexample :
    (processar_adivinhacao_accesses.all (fun a => a.locked)) = false := by
  decide

/-- Claim C9 amended: registration, removal, round start, round end, score
reset, ranking and broadcast all access shared state only under the global
lock, but `processar_adivinhacao` performs its read of the round flag, its
read of the target, and the winner's score increment without holding the
lock. -/
theorem c9_amended_lock_discipline :
    ((tryRegister_accesses ++ remove_jogador_accesses ++ inicia_jogo_accesses ++
        finalizar_jogo_accesses ++ zerar_scores_accesses ++ ranking_accesses ++
        anunciar_accesses).all (fun a => a.locked)) = true
    ∧ processar_adivinhacao_accesses.filter (fun a => ! a.locked) =
        [⟨SharedAccess.readRoundFlag, false⟩, ⟨SharedAccess.readTarget, false⟩,
         ⟨SharedAccess.writeScoreSelf, false⟩] := by
  constructor <;> decide

/-- Claim C10: resolving a correct guess changes no score other than the
winner's, which goes up by exactly 1; in particular the auto end-and-restart
resets nothing, so all scores persist into the new round. -/
theorem c10_only_winner_scored (self g : String) (s : ServerState) (r : Int)
    (hact : s.jogo_comecou = true) (hne : g ≠ self) :
    getScore (processar_adivinhacao self s s.numero_para_adivinhar r).1 g =
      getScore s g
    ∧ getScore (processar_adivinhacao self s s.numero_para_adivinhar r).1 self =
        (getScore s self).map (· + 1) := by
  rw [processar_win_state self s r hact]
  constructor
  · have := getScore_map_bump_ne s.jogadores self g hne s.jogo_comecou s.numero_para_adivinhar
    simpa [getScore] using this
  · have := getScore_map_bump_self s.jogadores self s.jogo_comecou s.numero_para_adivinhar
    simpa [getScore] using this

/-- Witness for C10: "A" wins; "B" keeps 5 points and "A" gains one. -/
theorem c10_witness :
    getScore (processar_adivinhacao "A" ⟨[⟨"A", 0⟩, ⟨"B", 5⟩], true, 7⟩ 7 9).1 "B" =
      getScore ⟨[⟨"A", 0⟩, ⟨"B", 5⟩], true, 7⟩ "B"
    ∧ getScore (processar_adivinhacao "A" ⟨[⟨"A", 0⟩, ⟨"B", 5⟩], true, 7⟩ 7 9).1 "A" =
        (getScore ⟨[⟨"A", 0⟩, ⟨"B", 5⟩], true, 7⟩ "A").map (· + 1) :=
  c10_only_winner_scored "A" "B" ⟨[⟨"A", 0⟩, ⟨"B", 5⟩], true, 7⟩ 9 rfl (by decide)

end Servidor
